import Mathlib

/-!
Verification of the three text-analysis services (zero-shot skill
classification, sentence embedding, named-entity recognition) of the
resume-processing backend.  Each Python service is shallowly embedded:
the pretrained-model collaborators (the zero-shot classifier, the
tokenizer+encoder pair, the aggregated token classifier), the float
parser, the JSON decoder and the file system are abstract parameters,
while the orchestration and post-processing code of the services is
translated faithfully.  Scores and thresholds are modelled as rationals,
embedding arithmetic as exact reals.
-/

/-- Python values as produced by the JSON decoder (the decoder is an
external collaborator; the shapes relevant to these services are
null, booleans, integers, strings and lists). -/
inductive PyVal where
  | null : PyVal
  | bool : Bool → PyVal
  | int : Int → PyVal
  | str : String → PyVal
  | list : List PyVal → PyVal

/-- Python str() on a JSON-decoded scalar, as used by the embedding
entrypoint via str(texts).  The list branch is unreachable from that
entrypoint (lists take the batch branch before str() is applied), so it
is given a placeholder rendering. -/
def pyStr : PyVal → String
  | PyVal.null => "None"
  | PyVal.bool true => "True"
  | PyVal.bool false => "False"
  | PyVal.int i => toString i
  | PyVal.str s => s
  | PyVal.list _ => "[...]"

/-- Whether a decoded value is a list (Python isinstance(v, list)). -/
def isListVal : PyVal → Bool
  | PyVal.list _ => true
  | _ => false

/-- The built-in default skill vocabulary of classification_service.py,
reproduced verbatim. -/
def DEFAULT_SKILLS : List String :=
  ["javascript", "python", "java", "react", "angular", "vue", "node.js",
   "express", "mongodb", "postgresql", "mysql", "aws", "azure", "gcp",
   "docker", "kubernetes", "git", "html", "css", "typescript",
   "graphql", "rest api", "microservices", "ci/cd", "jenkins",
   "agile", "scrum", "sql", "nosql", "redis", "elasticsearch",
   "machine learning", "artificial intelligence", "data science",
   "tensorflow", "pytorch", "spring boot", "django", "flask",
   "dotnet", "c#", "go", "rust", "php", "ruby", "rails"]

/-- The default vocabulary as the Python value passed to the classifier. -/
def defaultSkillsPy : PyVal := PyVal.list (DEFAULT_SKILLS.map PyVal.str)

/-- One formatted skill entry of the classification envelope. -/
structure SkillResult where
  skill : String
  confidence : ℚ
  method : String
deriving DecidableEq

/-- The classification result envelope.  count and error model optional
JSON keys: they are absent (none) on the branch that does not set them. -/
structure ClassifyResult where
  success : Bool
  skills : List SkillResult
  count : Option Nat
  error : Option String
deriving DecidableEq

/-- The None-to-default substitution at the top of classify_skills:
if candidate_labels is None, candidate_labels = DEFAULT_SKILLS. -/
def resolve_labels (cl : PyVal) : PyVal :=
  match cl with
  | PyVal.null => defaultSkillsPy
  | v => v

/-- The filtering loop of classify_skills: walk the zipped
(label, score) pairs in order and append a formatted entry whenever
score >= threshold. -/
def collectSkills (threshold : ℚ) : List (String × ℚ) → List SkillResult
  | [] => []
  | p :: rest =>
    if threshold ≤ p.2 then
      { skill := p.1, confidence := p.2, method := "zero-shot-classification" }
        :: collectSkills threshold rest
    else collectSkills threshold rest

/-- classify_skills of classification_service.py.  The zero-shot model is
the abstract collaborator cls, taking the text, the label value and the
multi_label flag and returning the aligned labels and scores arrays, or
the message of a raised exception (caught by the try/except). -/
def classify_skills
    (cls : String → PyVal → Bool → Except String (List String × List ℚ))
    (text : String) (candidate_labels : PyVal) (threshold : ℚ) : ClassifyResult :=
  match cls text (resolve_labels candidate_labels) true with
  | Except.error e => { success := false, skills := [], count := none, error := some e }
  | Except.ok ls =>
    let skills := collectSkills threshold (ls.1.zip ls.2)
    { success := true, skills := skills, count := some skills.length, error := none }

/-- The formatted entry built from one kept (label, score) pair. -/
def mkSkill (p : String × ℚ) : SkillResult :=
  { skill := p.1, confidence := p.2, method := "zero-shot-classification" }

lemma collectSkills_eq_filter_map (threshold : ℚ) (l : List (String × ℚ)) :
    collectSkills threshold l =
      (l.filter (fun p => threshold ≤ p.2)).map mkSkill := by
  induction l with
  | nil => rfl
  | cons p rest ih =>
    by_cases h : threshold ≤ p.2
    · simp [collectSkills, List.filter_cons, h, ih, mkSkill]
    · simp [collectSkills, List.filter_cons, h, ih]

lemma mem_collectSkills_confidence (threshold : ℚ) (l : List (String × ℚ))
    (r : SkillResult) (hr : r ∈ collectSkills threshold l) :
    threshold ≤ r.confidence := by
  induction l with
  | nil => exact absurd hr (by simp [collectSkills])
  | cons p rest ih =>
    by_cases h : threshold ≤ p.2
    · rw [collectSkills, if_pos h] at hr
      rcases List.mem_cons.mp hr with heq | hmem
      · subst heq; exact h
      · exact ih hmem
    · rw [collectSkills, if_neg h] at hr
      exact ih hr

lemma mem_collectSkills_mono (t1 t2 : ℚ) (hle : t1 ≤ t2)
    (l : List (String × ℚ)) (r : SkillResult)
    (hr : r ∈ collectSkills t2 l) : r ∈ collectSkills t1 l := by
  induction l with
  | nil => exact absurd hr (by simp [collectSkills])
  | cons p rest ih =>
    by_cases h2 : t2 ≤ p.2
    · have h1 : t1 ≤ p.2 := le_trans hle h2
      rw [collectSkills, if_pos h2] at hr
      rw [collectSkills, if_pos h1]
      rcases List.mem_cons.mp hr with heq | hmem
      · exact heq ▸ List.mem_cons_self _ _
      · exact List.mem_cons_of_mem _ (ih hmem)
    · rw [collectSkills, if_neg h2] at hr
      by_cases h1 : t1 ≤ p.2
      · rw [collectSkills, if_pos h1]
        exact List.mem_cons_of_mem _ (ih hr)
      · rw [collectSkills, if_neg h1]
        exact ih hr

/-- C1: on a successful collaborator response, the skills list of
classify_skills is exactly the in-order filter of the zipped
(label, score) pairs keeping a pair iff its score is at least the
threshold, each kept pair formatted with its score as confidence and
the constant method tag; consequently every returned entry has
confidence at least the threshold. -/
theorem classify_skills_filter_spec
    (cls : String → PyVal → Bool → Except String (List String × List ℚ))
    (text : String) (cl : PyVal) (th : ℚ)
    (labels : List String) (scores : List ℚ)
    (h : cls text (resolve_labels cl) true = Except.ok (labels, scores)) :
    (classify_skills cls text cl th).skills =
      ((labels.zip scores).filter (fun p => th ≤ p.2)).map mkSkill
    ∧ ∀ r ∈ (classify_skills cls text cl th).skills, th ≤ r.confidence := by
  have hs : (classify_skills cls text cl th).skills =
      collectSkills th (labels.zip scores) := by
    unfold classify_skills
    rw [h]
  constructor
  · rw [hs, collectSkills_eq_filter_map]
  · intro r hr
    rw [hs] at hr
    exact mem_collectSkills_confidence th _ r hr

/-- Concrete classifier collaborator used by witnesses. -/
def clsW : String → PyVal → Bool → Except String (List String × List ℚ) :=
  fun _ _ _ => Except.ok (["python", "cobol"], [9/10, 1/10])

/-- C1 witness at a concrete collaborator and threshold. -/
theorem classify_skills_filter_spec_witness :
    (classify_skills clsW "five years of python" PyVal.null (1/2)).skills =
      [{ skill := "python", confidence := 9/10, method := "zero-shot-classification" }] := by
  have h := (classify_skills_filter_spec clsW "five years of python" PyVal.null (1/2)
    ["python", "cobol"] [9/10, 1/10] rfl).1
  rw [h]
  norm_num [List.filter_cons, mkSkill]

/-- C2: with the collaborator returning the same scores in both runs,
raising the threshold never adds results: every skill entry returned at
the higher threshold t2 is also returned at the lower threshold t1. -/
theorem classify_skills_threshold_antitone
    (cls : String → PyVal → Bool → Except String (List String × List ℚ))
    (text : String) (cl : PyVal) (t1 t2 : ℚ) (h : t1 < t2) :
    ∀ r ∈ (classify_skills cls text cl t2).skills,
      r ∈ (classify_skills cls text cl t1).skills := by
  intro r hr
  revert hr
  unfold classify_skills
  cases cls text (resolve_labels cl) true with
  | error e => intro hr; exact absurd hr (List.not_mem_nil r)
  | ok ls => intro hr; exact mem_collectSkills_mono t1 t2 (le_of_lt h) _ r hr

/-- C2 witness: a concrete entry kept at threshold 3/4 is also kept at 1/2. -/
theorem classify_skills_threshold_antitone_witness :
    ({ skill := "python", confidence := 9/10, method := "zero-shot-classification" } : SkillResult)
      ∈ (classify_skills clsW "txt" PyVal.null (1/2)).skills := by
  exact classify_skills_threshold_antitone clsW "txt" PyVal.null (1/2) (3/4)
    (by norm_num) _ (by norm_num [classify_skills, clsW, resolve_labels, collectSkills])

/-- Componentwise scaling of a vector by a scalar. -/
noncomputable def vscale (c : ℝ) (v : List ℝ) : List ℝ := v.map (fun x => c * x)

/-- Componentwise addition of two vectors. -/
noncomputable def vadd (u v : List ℝ) : List ℝ := List.zipWith (fun a b => a + b) u v

/-- Sum of a list of vectors (torch.sum over the token dimension). -/
noncomputable def vsum : List (List ℝ) → List ℝ
  | [] => []
  | v :: vs => vs.foldl vadd v

/-- Sum of squared components of a vector. -/
noncomputable def sumSq (v : List ℝ) : ℝ := (v.map (fun x => x ^ 2)).sum

/-- mean_pooling of embedding_service.py for one sequence: the
attention-mask weighted sum of the per-token hidden vectors, divided by
the mask total clamped from below by 1e-9. -/
noncomputable def meanPool (tokenEmbeddings : List (List ℝ)) (mask : List ℝ) : List ℝ :=
  vscale (1 / max mask.sum (1 / 10 ^ 9)) (vsum (List.zipWith vscale mask tokenEmbeddings))

/-- F.normalize with p=2, dim=1 on one row: divide the vector by its
Euclidean norm clamped from below by the default eps 1e-12. -/
noncomputable def l2normalize (v : List ℝ) : List ℝ :=
  vscale (1 / max (Real.sqrt (sumSq v)) (1 / 10 ^ 12)) v

/-- The shared body of both embedding functions after the collaborator
returns: mean pooling then row-wise L2 normalization.  Each collaborator
row pairs the per-token hidden vectors of one input with its attention
mask. -/
noncomputable def embedPipeline (rows : List (List (List ℝ) × List ℝ)) : List (List ℝ) :=
  rows.map (fun r => l2normalize (meanPool r.1 r.2))

/-- The single-text embedding envelope.  dimension and error model
optional JSON keys. -/
structure EmbSingleResult where
  success : Bool
  embedding : List ℝ
  dimension : Option Nat
  error : Option String

/-- The batch embedding envelope. -/
structure EmbBatchResult where
  success : Bool
  embeddings : List (List ℝ)
  count : Option Nat
  dimension : Option Nat
  error : Option String

/-- generate_embedding of embedding_service.py.  The tokenizer+encoder
pair is the abstract collaborator run, mapping the list of input values
to the per-text (hidden states, attention mask) rows or to the message
of a raised exception.  Indexing row 0 of an empty result raises, which
the try/except converts into the failure envelope. -/
noncomputable def generate_embedding
    (run : List PyVal → Except String (List (List (List ℝ) × List ℝ)))
    (text : String) : EmbSingleResult :=
  match run [PyVal.str text] with
  | Except.error e => { success := false, embedding := [], dimension := none, error := some e }
  | Except.ok [] => { success := false, embedding := [], dimension := none,
                      error := some "IndexError: index 0 is out of bounds" }
  | Except.ok (r :: _) =>
    let v := l2normalize (meanPool r.1 r.2)
    { success := true, embedding := v, dimension := some v.length, error := none }

/-- generate_embeddings_batch of embedding_service.py, on the same
collaborator.  The dimension field reads row 0, so an empty batch raises
and yields the failure envelope. -/
noncomputable def generate_embeddings_batch
    (run : List PyVal → Except String (List (List (List ℝ) × List ℝ)))
    (texts : List PyVal) : EmbBatchResult :=
  match run texts with
  | Except.error e => { success := false, embeddings := [], count := none,
                        dimension := none, error := some e }
  | Except.ok [] => { success := false, embeddings := [], count := none, dimension := none,
                      error := some "IndexError: index 0 is out of bounds" }
  | Except.ok (r :: rs) =>
    let embs := embedPipeline (r :: rs)
    { success := true, embeddings := embs, count := some embs.length,
      dimension := some (l2normalize (meanPool r.1 r.2)).length, error := none }

/-- C4: the single-text embedding is the singleton instance of the batch
algorithm: both call the collaborator on the same singleton input, so on
a successful batch run the first batch vector equals the single-text
vector exactly (in particular within any floating-point tolerance), and
the single-text call succeeds as well. -/
theorem batch_single_consistency
    (run : List PyVal → Except String (List (List (List ℝ) × List ℝ)))
    (t : String)
    (h : (generate_embeddings_batch run [PyVal.str t]).success = true) :
    (generate_embeddings_batch run [PyVal.str t]).embeddings.head? =
      some (generate_embedding run t).embedding
    ∧ (generate_embedding run t).success = true := by
  revert h
  unfold generate_embeddings_batch generate_embedding
  cases run [PyVal.str t] with
  | error e => intro h; exact absurd h (by simp)
  | ok rows =>
    cases rows with
    | nil => intro h; exact absurd h (by simp)
    | cons r rs => intro _; exact ⟨rfl, rfl⟩

/-- Concrete tokenizer+encoder collaborator used by witnesses: one row
with a single one-dimensional token vector. -/
noncomputable def runW : List PyVal → Except String (List (List (List ℝ) × List ℝ)) :=
  fun _ => Except.ok [([[1]], [1])]

/-- C4 witness at the concrete collaborator. -/
theorem batch_single_consistency_witness :
    (generate_embeddings_batch runW [PyVal.str "hi"]).embeddings.head? =
      some (generate_embedding runW "hi").embedding
    ∧ (generate_embedding runW "hi").success = true :=
  batch_single_consistency runW "hi" rfl

lemma sumSq_nonneg (v : List ℝ) : 0 ≤ sumSq v := by
  unfold sumSq
  induction v with
  | nil => simp
  | cons x xs ih =>
    simp only [List.map_cons, List.sum_cons]
    have : (0:ℝ) ≤ x ^ 2 := sq_nonneg x
    linarith

lemma sumSq_vscale (c : ℝ) (v : List ℝ) : sumSq (vscale c v) = c ^ 2 * sumSq v := by
  unfold sumSq vscale
  induction v with
  | nil => simp
  | cons x xs ih =>
    simp only [List.map_cons, List.sum_cons] at ih ⊢
    rw [ih]
    ring

/-- Core normalization fact: when the squared norm of the input is at
least the square of the clamp eps 1e-12, F.normalize returns an exactly
unit vector. -/
lemma l2normalize_unit (v : List ℝ) (h : ((1:ℝ)/10^12) ^ 2 ≤ sumSq v) :
    Real.sqrt (sumSq (l2normalize v)) = 1 := by
  have hs0 : (0:ℝ) < sumSq v := lt_of_lt_of_le (by norm_num) h
  have hsqrt : ((1:ℝ)/10^12) ≤ Real.sqrt (sumSq v) := by
    have h2 := Real.sqrt_le_sqrt h
    rwa [Real.sqrt_sq (by norm_num)] at h2
  have hmax : max (Real.sqrt (sumSq v)) ((1:ℝ)/10^12) = Real.sqrt (sumSq v) :=
    max_eq_left hsqrt
  rw [l2normalize, sumSq_vscale, hmax, div_pow, one_pow, Real.sq_sqrt hs0.le,
    one_div, inv_mul_cancel₀ (ne_of_gt hs0), Real.sqrt_one]

/-- C5 (amended): every embedding vector returned in a successful
envelope whose pooled pre-normalization vector has squared norm at least
the square of the normalization eps 1e-12 has Euclidean norm exactly 1,
hence within any tolerance of 1.0.  (The unamended claim fails when the
pooled vector is smaller than eps, e.g. all-zero hidden states; see the
counterexample.) -/
theorem embedding_unit_norm :
    (∀ (run : List PyVal → Except String (List (List (List ℝ) × List ℝ)))
      (t : String) (rows : List (List (List ℝ) × List ℝ)),
      run [PyVal.str t] = Except.ok rows →
      (∀ r ∈ rows, ((1:ℝ)/10^12) ^ 2 ≤ sumSq (meanPool r.1 r.2)) →
      (generate_embedding run t).success = true →
      Real.sqrt (sumSq (generate_embedding run t).embedding) = 1)
    ∧ (∀ (run : List PyVal → Except String (List (List (List ℝ) × List ℝ)))
      (texts : List PyVal) (rows : List (List (List ℝ) × List ℝ)),
      run texts = Except.ok rows →
      (∀ r ∈ rows, ((1:ℝ)/10^12) ^ 2 ≤ sumSq (meanPool r.1 r.2)) →
      ∀ v ∈ (generate_embeddings_batch run texts).embeddings,
        Real.sqrt (sumSq v) = 1) := by
  constructor
  · intro run t rows hrun hall hsucc
    unfold generate_embedding at hsucc ⊢
    rw [hrun] at hsucc ⊢
    cases rows with
    | nil => exact absurd hsucc (by simp)
    | cons r rs =>
      exact l2normalize_unit _ (hall r (List.mem_cons_self r rs))
  · intro run texts rows hrun hall v hv
    unfold generate_embeddings_batch at hv
    rw [hrun] at hv
    cases rows with
    | nil => exact absurd hv (by simp)
    | cons r rs =>
      have hv2 : v ∈ embedPipeline (r :: rs) := hv
      obtain ⟨x, hx, rfl⟩ := List.mem_map.mp hv2
      exact l2normalize_unit _ (hall x hx)

/-- Concrete collaborator whose single row pools to the vector (3, 4). -/
noncomputable def run34 : List PyVal → Except String (List (List (List ℝ) × List ℝ)) :=
  fun _ => Except.ok [([[3, 4]], [1])]

lemma meanPool_run34 : meanPool [[(3:ℝ), 4]] [(1:ℝ)] = [3, 4] := by
  have hmax : max (1:ℝ) (1/10^9) = 1 := max_eq_left (by norm_num)
  simp [meanPool, vsum, vscale, List.zipWith, hmax]
  norm_num

/-- C5 witness: at the concrete collaborator the returned vector has
Euclidean norm exactly 1. -/
theorem embedding_unit_norm_witness :
    Real.sqrt (sumSq ((generate_embedding run34 "hello").embedding)) = 1 := by
  refine embedding_unit_norm.1 run34 "hello" [([[3, 4]], [1])] rfl ?_ rfl
  intro r hr
  rw [List.mem_singleton] at hr
  subst hr
  rw [meanPool_run34]
  show ((1:ℝ)/10^12) ^ 2 ≤ sumSq [3, 4]
  simp [sumSq]
  norm_num

/-- Concrete collaborator returning all-zero hidden states. -/
noncomputable def runZ : List PyVal → Except String (List (List (List ℝ) × List ℝ)) :=
  fun _ => Except.ok [([[0]], [1])]

/-- C5 counterexample to the unamended claim: with all-zero hidden
states the single-text service succeeds, yet the returned vector is the
zero vector, whose Euclidean norm 0 is not within 1e-5 of 1. -/
theorem embedding_unit_norm_counterexample :
    (generate_embedding runZ "resume text").success = true
    ∧ ¬ (|Real.sqrt (sumSq ((generate_embedding runZ "resume text").embedding)) - 1|
          ≤ 1/10^5) := by
  have h0 : meanPool [[(0:ℝ)]] [(1:ℝ)] = [0] := by
    simp [meanPool, vsum, vscale, List.zipWith]
  have hemb : (generate_embedding runZ "resume text").embedding = [0] := by
    show l2normalize (meanPool [[(0:ℝ)]] [(1:ℝ)]) = [0]
    rw [h0]
    simp [l2normalize, vscale]
  refine ⟨rfl, ?_⟩
  rw [hemb]
  have hz : sumSq [(0:ℝ)] = 0 := by simp [sumSq]
  rw [hz, Real.sqrt_zero]
  norm_num

/-- Python str.replace applied with the two-character pattern of two
hash marks and the empty replacement: scan left to right, removing
non-overlapping occurrences of the pattern. -/
def removeHashHash : List Char → List Char
  | [] => []
  | [c] => [c]
  | c :: d :: rest =>
    if c = '#' ∧ d = '#' then removeHashHash rest
    else c :: removeHashHash (d :: rest)

/-- Whether a character list contains two adjacent hash marks. -/
def containsHH : List Char → Bool
  | c :: d :: rest => if c = '#' ∧ d = '#' then true else containsHH (d :: rest)
  | _ => false

lemma containsHH_cons (c : Char) (l : List Char)
    (h : c ≠ '#' ∨ l.head? ≠ some '#') : containsHH (c :: l) = containsHH l := by
  cases l with
  | nil => rfl
  | cons d rest =>
    have hcd : ¬ (c = '#' ∧ d = '#') := by
      rcases h with hc | hd
      · exact fun hp => hc hp.1
      · exact fun hp => hd (by rw [List.head?_cons, hp.2])
    show (if c = '#' ∧ d = '#' then true else containsHH (d :: rest)) = containsHH (d :: rest)
    rw [if_neg hcd]

lemma removeHashHash_head (c : Char) (l : List Char) (h : c ≠ '#') :
    (removeHashHash (c :: l)).head? = some c := by
  cases l with
  | nil => rfl
  | cons d rest =>
    show (if c = '#' ∧ d = '#' then removeHashHash rest
          else c :: removeHashHash (d :: rest)).head? = some c
    rw [if_neg (fun hp => h hp.1)]
    rfl

lemma containsHH_removeHashHash (l : List Char) :
    containsHH (removeHashHash l) = false := by
  suffices H : ∀ n (l : List Char), l.length ≤ n → containsHH (removeHashHash l) = false by
    exact H l.length l le_rfl
  intro n
  induction n with
  | zero =>
    intro l hl
    rw [List.length_eq_zero.mp (Nat.le_zero.mp hl)]
    rfl
  | succ n ih =>
    intro l hl
    cases l with
    | nil => rfl
    | cons c l2 =>
      cases l2 with
      | nil => rfl
      | cons d rest =>
        show containsHH (if c = '#' ∧ d = '#' then removeHashHash rest
              else c :: removeHashHash (d :: rest)) = false
        simp only [List.length_cons] at hl
        by_cases hcd : c = '#' ∧ d = '#'
        · rw [if_pos hcd]
          exact ih rest (by omega)
        · rw [if_neg hcd]
          by_cases hc : c = '#'
          · have hd : d ≠ '#' := fun hdd => hcd ⟨hc, hdd⟩
            rw [containsHH_cons c _ (Or.inr (by
              rw [removeHashHash_head d rest hd]
              exact fun hs => hd (Option.some.inj hs)))]
            exact ih (d :: rest) (by simp only [List.length_cons]; omega)
          · rw [containsHH_cons c _ (Or.inl hc)]
            exact ih (d :: rest) (by simp only [List.length_cons]; omega)

/-- Python str.split() with no argument: split on runs of whitespace,
dropping empty fragments.  The accumulator carries the current word in
reverse. -/
def pySplitAux : List Char → List Char → List (List Char)
  | [], cur => if cur.isEmpty then [] else [cur.reverse]
  | c :: rest, cur =>
    if c.isWhitespace then
      if cur.isEmpty then pySplitAux rest [] else cur.reverse :: pySplitAux rest []
    else pySplitAux rest (c :: cur)

/-- Python text.split(). -/
def pySplit (l : List Char) : List (List Char) := pySplitAux l []

/-- The whitespace condensation of extract_entities:
" ".join(text.split()). -/
def condense (l : List Char) : List Char := List.intercalate [' '] (pySplit l)

/-- One raw entity record as produced by the aggregated
token-classification collaborator.  Optional fields model dict keys the
collaborator may omit: the aggregated group label, the raw entity label
and the character offsets. -/
structure RawEntity where
  word : List Char
  score : ℚ
  entity_group : Option String
  entity : Option String
  startO : Option Nat
  endO : Option Nat
deriving DecidableEq

/-- One formatted entity span of the result envelope; endPos models the
JSON end field. -/
structure EntitySpan where
  entity_group : String
  word : List Char
  score : ℚ
  start : Nat
  endPos : Nat
deriving DecidableEq

/-- The NER result envelope. -/
structure NerResult where
  success : Bool
  entities : List EntitySpan
  count : Option Nat
  error : Option String
deriving DecidableEq

/-- The per-entity formatting of extract_entities: the group label falls
back from the aggregated group to the raw entity label to the UNKNOWN
sentinel, the word is cleaned of the sub-word marker, and missing
offsets default to 0. -/
def formatEntity (e : RawEntity) : EntitySpan :=
  { entity_group := e.entity_group.getD (e.entity.getD "UNKNOWN"),
    word := removeHashHash e.word,
    score := e.score,
    start := e.startO.getD 0,
    endPos := e.endO.getD 0 }

/-- extract_entities of ner_service.py: condense whitespace, consult the
aggregated token-classification collaborator, format each record; a
raised exception is caught into the failure envelope. -/
def extract_entities
    (nerp : List Char → Except String (List RawEntity))
    (text : String) : NerResult :=
  match nerp (condense text.toList) with
  | Except.error e => { success := false, entities := [], count := none, error := some e }
  | Except.ok raws =>
    { success := true, entities := raws.map formatEntity,
      count := some raws.length, error := none }

/-- C9: no entity span emitted by extract_entities ever contains two
adjacent hash marks in its word field, whatever records the collaborator
returns. -/
theorem entity_word_no_marker
    (nerp : List Char → Except String (List RawEntity))
    (text : String) (sp : EntitySpan)
    (h : sp ∈ (extract_entities nerp text).entities) :
    containsHH sp.word = false := by
  revert h
  unfold extract_entities
  cases nerp (condense text.toList) with
  | error e => intro h; exact absurd h (List.not_mem_nil sp)
  | ok raws =>
    intro h
    obtain ⟨e, _, rfl⟩ := List.mem_map.mp h
    exact containsHH_removeHashHash e.word

/-- Concrete token-classification collaborator used by the C9 witness:
one record whose word starts with the sub-word marker. -/
def nerpW : List Char → Except String (List RawEntity) :=
  fun _ => Except.ok
    [{ word := ['#', '#', 'J', 'o', 'h', 'n'], score := 1,
       entity_group := some "PER", entity := none,
       startO := some 0, endO := some 4 }]

/-- The span the C9 witness collaborator record formats to. -/
def spanW : EntitySpan :=
  { entity_group := "PER", word := ['J', 'o', 'h', 'n'], score := 1,
    start := 0, endPos := 4 }

/-- C9 witness at the concrete collaborator. -/
theorem entity_word_no_marker_witness : containsHH spanW.word = false :=
  entity_word_no_marker nerpW "John" spanW (by decide)

/-- Python list/string slicing l[a:b] for 0 <= a <= b. -/
def listSlice (a b : Nat) (l : List Char) : List Char := (l.drop a).take (b - a)

/-- Concrete raw entity whose offsets 2..3 point at the word b inside
the condensed text of the C10 instance. -/
def rawB : RawEntity :=
  { word := ['b'], score := 1, entity_group := some "MISC", entity := none,
    startO := some 2, endO := some 3 }

/-- Concrete token-classification collaborator for the C10 instance. -/
def nerpB : List Char → Except String (List RawEntity) :=
  fun _ => Except.ok [rawB]

/-- C10: extract_entities consults the collaborator on the
whitespace-condensed text and copies the returned character offsets
through unchanged, so the offsets index the condensed text; on the
concrete input with a double space, the span 2..3 extracts the entity
word from the condensed text but extracts a space from the original
text, so the offsets need not index the original text correctly. -/
theorem entity_offsets_into_condensed :
    (∀ (nerp : List Char → Except String (List RawEntity)) (text : String)
      (raws : List RawEntity),
      nerp (condense text.toList) = Except.ok raws →
      (extract_entities nerp text).entities = raws.map formatEntity)
    ∧ condense ("a  b").toList = ['a', ' ', 'b']
    ∧ (extract_entities nerpB "a  b").entities =
        [{ entity_group := "MISC", word := ['b'], score := 1, start := 2, endPos := 3 }]
    ∧ listSlice 2 3 (condense ("a  b").toList) = ['b']
    ∧ listSlice 2 3 ("a  b").toList = [' ']
    ∧ ([' '] : List Char) ≠ ['b'] := by
  refine ⟨?_, by decide, by decide, by decide, by decide, by decide⟩
  intro nerp text raws h
  unfold extract_entities
  rw [h]

/-- C10 witness for the passthrough conjunct, at the concrete
collaborator. -/
theorem entity_offsets_into_condensed_witness :
    (extract_entities nerpB "a  b").entities = List.map formatEntity [rawB] :=
  entity_offsets_into_condensed.1 nerpB "a  b" [rawB] rfl

/-- C3: every envelope of the three services satisfies the shared
invariant: on failure the payload collection is empty and an error
message is present; on success no error field is present. -/
theorem envelope_invariant :
    (∀ (cls : String → PyVal → Bool → Except String (List String × List ℚ))
      (text : String) (cl : PyVal) (th : ℚ),
      ((classify_skills cls text cl th).success = false →
        (classify_skills cls text cl th).skills = []
        ∧ (classify_skills cls text cl th).error.isSome = true)
      ∧ ((classify_skills cls text cl th).success = true →
        (classify_skills cls text cl th).error = none))
    ∧ (∀ (run : List PyVal → Except String (List (List (List ℝ) × List ℝ)))
      (text : String),
      ((generate_embedding run text).success = false →
        (generate_embedding run text).embedding = []
        ∧ (generate_embedding run text).error.isSome = true)
      ∧ ((generate_embedding run text).success = true →
        (generate_embedding run text).error = none))
    ∧ (∀ (run : List PyVal → Except String (List (List (List ℝ) × List ℝ)))
      (texts : List PyVal),
      ((generate_embeddings_batch run texts).success = false →
        (generate_embeddings_batch run texts).embeddings = []
        ∧ (generate_embeddings_batch run texts).error.isSome = true)
      ∧ ((generate_embeddings_batch run texts).success = true →
        (generate_embeddings_batch run texts).error = none))
    ∧ (∀ (nerp : List Char → Except String (List RawEntity)) (text : String),
      ((extract_entities nerp text).success = false →
        (extract_entities nerp text).entities = []
        ∧ (extract_entities nerp text).error.isSome = true)
      ∧ ((extract_entities nerp text).success = true →
        (extract_entities nerp text).error = none)) := by
  refine ⟨?_, ?_, ?_, ?_⟩
  · intro cls text cl th
    unfold classify_skills
    cases cls text (resolve_labels cl) true <;> simp
  · intro run text
    unfold generate_embedding
    cases hr : run [PyVal.str text] with
    | error e => simp
    | ok rows => cases rows <;> simp
  · intro run texts
    unfold generate_embeddings_batch
    cases hr : run texts with
    | error e => simp
    | ok rows => cases rows <;> simp
  · intro nerp text
    unfold extract_entities
    cases nerp (condense text.toList) <;> simp

/-- Concrete always-failing classifier collaborator. -/
def clsE : String → PyVal → Bool → Except String (List String × List ℚ) :=
  fun _ _ _ => Except.error "CUDA out of memory"

/-- C3 witness: at a failing collaborator the classification envelope has
an empty payload and an error message. -/
theorem envelope_invariant_witness :
    (classify_skills clsE "x" PyVal.null (1/2)).skills = []
    ∧ (classify_skills clsE "x" PyVal.null (1/2)).error.isSome = true :=
  (envelope_invariant.1 clsE "x" PyVal.null (1/2)).1 rfl

/-- The two call shapes of the embedding entrypoint. -/
inductive EmbMode where
  | batchMode : List PyVal → EmbMode
  | singleMode : String → EmbMode

/-- The input-mode dispatch of the embedding entrypoint: decode the raw
argument with the JSON decoder collaborator; a decode failure (the
caught decode exception) falls back to the literal argument in single
mode; a decoded list enters batch mode; any other decoded value enters
single mode through Python str() of the decoded value. -/
def embedDispatch (pyJson : String → Option PyVal) (arg : String) : EmbMode :=
  match pyJson arg with
  | none => EmbMode.singleMode arg
  | some (PyVal.list l) => EmbMode.batchMode l
  | some v => EmbMode.singleMode (pyStr v)

/-- C6 (amended): a decode failure enters single mode with the literal
argument; a decoded list enters batch mode on that list; a decoded
non-list value enters single mode with the str() rendering of the
decoded value, which can differ from the literal argument. -/
theorem embed_dispatch_modes (pyJson : String → Option PyVal) (arg : String) :
    (pyJson arg = none → embedDispatch pyJson arg = EmbMode.singleMode arg)
    ∧ (∀ l, pyJson arg = some (PyVal.list l) →
        embedDispatch pyJson arg = EmbMode.batchMode l)
    ∧ (∀ v, pyJson arg = some v → isListVal v = false →
        embedDispatch pyJson arg = EmbMode.singleMode (pyStr v)) := by
  refine ⟨?_, ?_, ?_⟩
  · intro h
    unfold embedDispatch
    rw [h]
  · intro l h
    unfold embedDispatch
    rw [h]
  · intro v h hv
    unfold embedDispatch
    rw [h]
    cases v with
    | list l => simp [isListVal] at hv
    | null => rfl
    | bool b => cases b <;> rfl
    | int i => rfl
    | str s => rfl

/-- Concrete JSON decoder collaborator that decodes the literal true and
rejects everything else, as json.loads does on these two inputs. -/
def pjTrue : String → Option PyVal :=
  fun s => if s = "true" then some (PyVal.bool true) else none

/-- C6 witness: a non-JSON argument enters single mode with the literal
argument. -/
theorem embed_dispatch_modes_witness :
    embedDispatch pjTrue "[1" = EmbMode.singleMode "[1" :=
  (embed_dispatch_modes pjTrue "[1").1 rfl

/-- C6 counterexample to the unamended claim: the argument true decodes
to a scalar, and the entrypoint then uses the text True, not the literal
argument true. -/
theorem embed_dispatch_counterexample :
    pjTrue "true" = some (PyVal.bool true)
    ∧ embedDispatch pjTrue "true" = EmbMode.singleMode "True"
    ∧ EmbMode.singleMode "True" ≠ EmbMode.singleMode "true" := by
  refine ⟨rfl, rfl, ?_⟩
  intro h
  injection h with h2
  exact absurd h2 (by decide)

/-- Outcome of one entrypoint process: ok models printing the envelope
and exiting 0; noInput models printing the fixed envelope with success
false and the error message No input text provided, then exiting 1;
crash models an uncaught exception terminating the process with a
traceback, exit code 1 and no envelope printed. -/
inductive ProcOut (α : Type) where
  | ok : α → ProcOut α
  | noInput : ProcOut α
  | crash : String → ProcOut α

/-- The process exit code of each outcome. -/
def exitCode {α : Type} : ProcOut α → Nat
  | ProcOut.ok _ => 0
  | ProcOut.noInput => 1
  | ProcOut.crash _ => 1

/-- The classification entrypoint.  argv is the full sys.argv including
the script name.  The float conversion of argv(2) and the JSON decoding
of argv(3) are collaborator parameters; a conversion failure raises
uncaught (crash), since neither line is inside a try block. -/
def classification_main
    (cls : String → PyVal → Bool → Except String (List String × List ℚ))
    (pyFloat : String → Option ℚ) (pyJson : String → Option PyVal)
    (argv : List String) : ProcOut ClassifyResult :=
  if argv.length < 2 then ProcOut.noInput
  else
    match (if 2 < argv.length then pyFloat (argv.getD 2 "") else some (1/2)) with
    | none => ProcOut.crash "ValueError"
    | some th =>
      if 3 < argv.length then
        match pyJson (argv.getD 3 "") with
        | none => ProcOut.crash "JSONDecodeError"
        | some v => ProcOut.ok (classify_skills cls (argv.getD 1 "") v th)
      else ProcOut.ok (classify_skills cls (argv.getD 1 "") PyVal.null th)

/-- Concrete float conversion collaborator. -/
def pfW : String → Option ℚ := fun s => if s = "0.5" then some (1/2) else none

/-- Concrete JSON decoder that rejects every input. -/
def pjFail : String → Option PyVal := fun _ => none

/-- C7 counterexample to the unamended claim: with malformed JSON as the
candidate_labels argument the entrypoint crashes with an uncaught decode
error and prints no envelope at all. -/
theorem classification_malformed_labels_crash :
    classification_main clsW pfW pjFail
        ["classification_service.py", "python developer", "0.5", "-not json-"]
      = ProcOut.crash "JSONDecodeError"
    ∧ exitCode (classification_main clsW pfW pjFail
        ["classification_service.py", "python developer", "0.5", "-not json-"]) = 1 :=
  ⟨rfl, rfl⟩

/-- C7 (amended): malformed candidate_labels JSON raises an uncaught
decode exception and the process crashes without printing an envelope;
the default vocabulary is used only when the argument parses to JSON
null (Python None) or is absent, in which case classify_skills with a
null label value behaves exactly as with the default vocabulary. -/
theorem classification_labels_fallback
    (cls : String → PyVal → Bool → Except String (List String × List ℚ))
    (pf : String → Option ℚ) (pj : String → Option PyVal) (argv : List String) :
    (∀ th, 3 < argv.length → pf (argv.getD 2 "") = some th →
      pj (argv.getD 3 "") = none →
      classification_main cls pf pj argv = ProcOut.crash "JSONDecodeError")
    ∧ (∀ th, 3 < argv.length → pf (argv.getD 2 "") = some th →
      pj (argv.getD 3 "") = some PyVal.null →
      classification_main cls pf pj argv =
        ProcOut.ok (classify_skills cls (argv.getD 1 "") PyVal.null th))
    ∧ (∀ t th, classify_skills cls t PyVal.null th =
        classify_skills cls t defaultSkillsPy th) := by
  refine ⟨?_, ?_, fun t th => rfl⟩
  · intro th h3 hpf hpj
    unfold classification_main
    rw [if_neg (by omega), if_pos (by omega), hpf]
    simp only [if_pos h3, hpj]
  · intro th h3 hpf hpj
    unfold classification_main
    rw [if_neg (by omega), if_pos (by omega), hpf]
    simp only [if_pos h3, hpj]

/-- Concrete JSON decoder that decodes the literal null. -/
def pjNull : String → Option PyVal :=
  fun s => if s = "null" then some PyVal.null else none

/-- C7 witness: a null candidate_labels argument reaches classify_skills
as None and hence uses the default vocabulary. -/
theorem classification_labels_fallback_witness :
    classification_main clsW pfW pjNull ["classification_service.py", "text", "0.5", "null"]
      = ProcOut.ok (classify_skills clsW "text" PyVal.null (1/2)) :=
  (classification_labels_fallback clsW pfW pjNull
    ["classification_service.py", "text", "0.5", "null"]).2.1 (1/2) (by decide) rfl rfl

/-- The two envelope shapes the embedding entrypoint can print. -/
inductive EmbOut where
  | single : EmbSingleResult → EmbOut
  | batch : EmbBatchResult → EmbOut

/-- The embedding entrypoint: arity check, then mode dispatch on the
raw argument; the only exception the dispatch can raise (the JSON decode
error) is caught, so no crash path exists past the arity check. -/
noncomputable def embedding_main
    (run : List PyVal → Except String (List (List (List ℝ) × List ℝ)))
    (pyJson : String → Option PyVal) (argv : List String) : ProcOut EmbOut :=
  if argv.length < 2 then ProcOut.noInput
  else ProcOut.ok
    (match embedDispatch pyJson (argv.getD 1 "") with
      | EmbMode.batchMode l => EmbOut.batch (generate_embeddings_batch run l)
      | EmbMode.singleMode t => EmbOut.single (generate_embedding run t))

/-- State of a path in the file-system collaborator: not a regular file,
a readable regular file with contents, or a regular file whose read
raises (for example a permission error). -/
inductive PyFile where
  | missing : PyFile
  | readable : String → PyFile
  | unreadable : PyFile

/-- The file-argument resolution of the entity entrypoint: a falsy
(absent or empty) file argument is skipped, a non-file path yields no
text, a readable file yields its contents, and a read failure raises
uncaught (error). -/
def nerFileText (fs : String → PyFile) (fileArg : Option String) :
    Except Unit (Option String) :=
  match fileArg with
  | none => Except.ok none
  | some p =>
    if p.isEmpty then Except.ok none
    else
      match fs p with
      | PyFile.missing => Except.ok none
      | PyFile.readable c => Except.ok (some c)
      | PyFile.unreadable => Except.error ()

/-- The text fallback of the entity entrypoint: the text argument is
consulted only when the file step produced no text at all (None), and a
falsy (empty) text argument is skipped. -/
def resolveInput (fileText : Option String) (textArg : Option String) : Option String :=
  match fileText with
  | some c => some c
  | none =>
    match textArg with
    | none => none
    | some t => if t.isEmpty then none else some t

/-- Python falsiness of the resolved input: None or the empty string. -/
def isNoneOrEmpty : Option String → Bool
  | none => true
  | some s => s.isEmpty

/-- The entity entrypoint: resolve the input text from the file and text
arguments, print the no-input envelope and exit 1 when it is falsy, and
otherwise run extract_entities and exit 0. -/
def ner_main (nerp : List Char → Except String (List RawEntity))
    (fs : String → PyFile) (textArg fileArg : Option String) : ProcOut NerResult :=
  match nerFileText fs fileArg with
  | Except.error _ => ProcOut.crash "OSError"
  | Except.ok ft =>
    if isNoneOrEmpty (resolveInput ft textArg) then ProcOut.noInput
    else ProcOut.ok (extract_entities nerp ((resolveInput ft textArg).getD ""))

/-- C8 (amended): the no-input envelope with exit code 1 appears exactly
when the resolved input is missing or empty (for the classification and
embedding entrypoints: fewer than two argv entries; for the entity
entrypoint: the file step yields no text or empty text and the text
argument is absent or empty, an empty file shadowing any text argument);
a malformed threshold argument crashes the classification process with
exit code 1 and no envelope, as does an unreadable file for the entity
process; in the remaining cases, including inference failures reported
inside a success-false envelope, the exit code is 0. -/
theorem exit_code_characterization :
    (∀ (run : List PyVal → Except String (List (List (List ℝ) × List ℝ)))
      (pyJson : String → Option PyVal) (argv : List String),
      (embedding_main run pyJson argv = ProcOut.noInput ↔ argv.length < 2)
      ∧ (2 ≤ argv.length → exitCode (embedding_main run pyJson argv) = 0))
    ∧ (∀ (cls : String → PyVal → Bool → Except String (List String × List ℚ))
      (pf : String → Option ℚ) (pj : String → Option PyVal) (argv : List String),
      (classification_main cls pf pj argv = ProcOut.noInput ↔ argv.length < 2))
    ∧ (∀ (cls : String → PyVal → Bool → Except String (List String × List ℚ))
      (pf : String → Option ℚ) (pj : String → Option PyVal) (argv : List String)
      (th : ℚ),
      2 ≤ argv.length →
      (2 < argv.length → pf (argv.getD 2 "") = some th) →
      (3 < argv.length → (pj (argv.getD 3 "")).isSome = true) →
      exitCode (classification_main cls pf pj argv) = 0)
    ∧ (∀ (cls : String → PyVal → Bool → Except String (List String × List ℚ))
      (pf : String → Option ℚ) (pj : String → Option PyVal) (argv : List String),
      2 < argv.length → pf (argv.getD 2 "") = none →
      classification_main cls pf pj argv = ProcOut.crash "ValueError")
    ∧ (∀ (cls : String → PyVal → Bool → Except String (List String × List ℚ))
      (pf : String → Option ℚ) (pj : String → Option PyVal) (argv : List String)
      (th : ℚ),
      3 < argv.length → pf (argv.getD 2 "") = some th → pj (argv.getD 3 "") = none →
      exitCode (classification_main cls pf pj argv) = 1)
    ∧ (∀ (nerp : List Char → Except String (List RawEntity)) (fs : String → PyFile)
      (textArg fileArg : Option String),
      nerFileText fs fileArg = Except.error () →
      ner_main nerp fs textArg fileArg = ProcOut.crash "OSError")
    ∧ (∀ (nerp : List Char → Except String (List RawEntity)) (fs : String → PyFile)
      (textArg fileArg : Option String) (ft : Option String),
      nerFileText fs fileArg = Except.ok ft →
      ((ner_main nerp fs textArg fileArg = ProcOut.noInput
        ↔ isNoneOrEmpty (resolveInput ft textArg) = true)
      ∧ (isNoneOrEmpty (resolveInput ft textArg) = false →
        exitCode (ner_main nerp fs textArg fileArg) = 0))) := by
  refine ⟨?_, ?_, ?_, ?_, ?_, ?_, ?_⟩
  · intro run pyJson argv
    constructor
    · by_cases h : argv.length < 2
      · simp [embedding_main, h]
      · simp only [embedding_main, if_neg h]
        cases embedDispatch pyJson (argv.getD 1 "") <;> simp [h]
    · intro h2
      unfold embedding_main
      rw [if_neg (by omega)]
      rfl
  · intro cls pf pj argv
    by_cases h : argv.length < 2
    · simp [classification_main, h]
    · simp only [classification_main, if_neg h]
      cases hf : (if 2 < argv.length then pf (argv.getD 2 "") else some (1/2)) with
      | none => simp [h]
      | some th =>
        by_cases h3 : 3 < argv.length
        · simp only [if_pos h3]
          cases pj (argv.getD 3 "") <;> simp [h]
        · simp only [if_neg h3]
          simp [h]
  · intro cls pf pj argv th h2 hpf hpj
    unfold classification_main
    rw [if_neg (by omega)]
    by_cases hgt : 2 < argv.length
    · rw [if_pos hgt, hpf hgt]
      by_cases h3 : 3 < argv.length
      · obtain ⟨v, hv⟩ := Option.isSome_iff_exists.mp (hpj h3)
        simp only [if_pos h3, hv]
        rfl
      · simp only [if_neg h3]
        rfl
    · rw [if_neg hgt]
      have h3 : ¬ 3 < argv.length := by omega
      simp only [if_neg h3]
      rfl
  · intro cls pf pj argv h2 hpf
    unfold classification_main
    rw [if_neg (by omega), if_pos h2, hpf]
  · intro cls pf pj argv th h3 hpf hpj
    unfold classification_main
    rw [if_neg (by omega), if_pos (by omega), hpf]
    simp only [if_pos h3, hpj]
    rfl
  · intro nerp fs textArg fileArg h
    unfold ner_main
    rw [h]
  · intro nerp fs textArg fileArg ft hft
    constructor
    · unfold ner_main
      rw [hft]
      by_cases hne : isNoneOrEmpty (resolveInput ft textArg) = true
      · simp [hne]
      · simp [hne]
    · intro hfalse
      simp [ner_main, hft, hfalse, exitCode]

/-- File-system collaborator in which every path is an unreadable file. -/
def fsU : String → PyFile := fun _ => PyFile.unreadable

/-- C8 counterexample to the unamended claim: the entity entrypoint is
given a usable text argument, yet the unreadable file argument raises an
uncaught read error and the process exits 1 without printing any
envelope, instead of folding into the input-error path or exiting 0. -/
theorem exit_code_counterexample :
    ner_main nerpW fsU (some "John works at Acme") (some "resume.txt")
      = ProcOut.crash "OSError"
    ∧ exitCode (ner_main nerpW fsU (some "John works at Acme") (some "resume.txt")) = 1 :=
  ⟨rfl, rfl⟩

/-- C8 witness: a two-argument embedding invocation exits 0. -/
theorem exit_code_characterization_witness :
    exitCode (embedding_main runW pjTrue ["embedding_service.py", "hello world"]) = 0 :=
  (exit_code_characterization.1 runW pjTrue ["embedding_service.py", "hello world"]).2
    (by decide)
